import Mathlib

/-!
Shallow embedding of the active variant of `src/news-tracker.js`
(class `NewsTracker`, version 1.1.0, lines 1-300 of the file).

Numbers are modelled as rationals (the source uses JS numbers only for
finite additions, subtractions, multiplications, divisions, `Math.max`,
`Math.min` and comparisons, all of which the claims treat exactly).
The two scheduling primitives are modelled explicitly:
  - `requestAnimationFrame` handles as an `Option Nat` field plus a
    fresh-handle counter;
  - the idle `setTimeout` as an `Option ℚ` holding the absolute time
    (in milliseconds) at which the pending timer fires; `none` means no
    timer is scheduled.  Per the HTML standard, `setTimeout` clamps a
    negative delay to `0`, which the model reproduces with `max 0`.
Event-handler methods that read the current clock (`performance.now()`
or the implicit scheduling instant of `setTimeout`) take `now : ℚ`
(milliseconds) as an explicit argument.
-/

namespace NewsTracker

/-- One theme record of `config.themes` (source lines 21-25). -/
structure Theme where
  background : String
  text : String
  itemBg : String
  itemBorder : String
deriving DecidableEq, Repr

/-- The inline style of one `.nt-news-item` element, as written by
`setTheme` (source lines 149-152). -/
structure ItemStyle where
  backgroundColor : String
  border : String
deriving DecidableEq, Repr

/-- The merged configuration object `this.config` (source line 33). -/
structure Config where
  scrollSpeed : ℚ
  idleTimeout : ℚ
  autoStart : Bool
  themes : List (String × Theme)
deriving DecidableEq, Repr

/-- The five built-in themes of `NewsTracker.defaultOptions.themes`
(source lines 20-26), as an association list keyed by theme name. -/
def defaultThemes : List (String × Theme) :=
  [("default", ⟨"#f0f0f0", "#333", "#fff", "#ddd"⟩),
   ("dark", ⟨"#1a1a1a", "#fff", "#333", "#444"⟩),
   ("blue", ⟨"#e3f2fd", "#0d47a1", "#bbdefb", "#90caf9"⟩),
   ("green", ⟨"#e8f5e9", "#2e7d32", "#c8e6c9", "#a5d6a7"⟩),
   ("modern", ⟨"#212121", "#00ff9d", "#424242", "#00ff9d"⟩)]

/-- The caller-supplied `options` object of the constructor: every field
is optional and, when present, overrides the corresponding default
(the spread merge `{ ...NewsTracker.defaultOptions, ...options }`,
source line 33). -/
structure NTOptions where
  scrollSpeed : Option ℚ := none
  idleTimeout : Option ℚ := none
  autoStart : Option Bool := none
  themes : Option (List (String × Theme)) := none
deriving DecidableEq, Repr

/-- The constructor's configuration merge (source line 33):
`this.config = { ...NewsTracker.defaultOptions, ...options }`.
Defaults are `scrollSpeed = 100`, `idleTimeout = 5`, `autoStart = true`
(source lines 27-29).  No field is validated. -/
def mkConfig (o : NTOptions) : Config :=
  { scrollSpeed := o.scrollSpeed.getD 100
    idleTimeout := o.idleTimeout.getD 5
    autoStart := o.autoStart.getD true
    themes := o.themes.getD defaultThemes }

/-- The mutable instance state of a `NewsTracker` object: the fields
assigned in the constructor (source lines 35-42), the drag bookkeeping
fields `startX` / `startScrollPosition` (source lines 237-238, 261-262),
`lastFrameTime` (source line 158), and the observable pieces of the DOM
the motion core writes: the `translateX` value of each of the two track
elements (source lines 180-185), the container colors and the news-item
styles (source lines 147-152). -/
structure TrackerState where
  currentTheme : String
  isScrolling : Bool
  scrollPosition : ℚ
  contentWidth : ℚ
  animationFrameId : Option Nat
  nextFrameHandle : Nat
  isDragging : Bool
  isHovered : Bool
  idlePending : Option ℚ
  startX : ℚ
  startScrollPosition : ℚ
  lastFrameTime : ℚ
  contentTransforms : List ℚ
  containerBg : String
  containerColor : String
  items : List ItemStyle
deriving DecidableEq, Repr

/-- The state right after the constructor's field initializers
(source lines 35-42): not scrolling, zero offset, no handles, the two
track elements untranslated. -/
def initialState : TrackerState :=
  { currentTheme := "default"
    isScrolling := false
    scrollPosition := 0
    contentWidth := 0
    animationFrameId := none
    nextFrameHandle := 0
    isDragging := false
    isHovered := false
    idlePending := none
    startX := 0
    startScrollPosition := 0
    lastFrameTime := 0
    contentTransforms := [0, 0]
    containerBg := ""
    containerColor := ""
    items := [] }

/-- `applyScrollPosition` (source lines 180-185): writes
`translateX(-scrollPosition)` to every track element. -/
def applyScrollPosition (s : TrackerState) : TrackerState :=
  { s with contentTransforms := s.contentTransforms.map (fun _ => -s.scrollPosition) }

/-- The wrap normalization inside `animationLoop` (source lines 172-174):
a single conditional subtraction of the track length. -/
def wrapPosition (width pos : ℚ) : ℚ :=
  if width ≤ pos then pos - width else pos

/-- One invocation of `animationLoop` (source lines 162-178) at clock
value `now` (milliseconds): bail out when not scrolling; otherwise
advance `scrollPosition` by
`(deltaTime / 1000) * ((contentWidth / 2) / scrollSpeed)`, normalize it
with the single conditional subtraction, apply the offset to both
tracks, and schedule the next frame. -/
def animationLoop (cfg : Config) (s : TrackerState) (now : ℚ) : TrackerState :=
  if s.isScrolling = false then s else
    let deltaTime := now - s.lastFrameTime
    let pixelsPerSecond := (s.contentWidth / 2) / cfg.scrollSpeed
    let pos := wrapPosition s.contentWidth
      (s.scrollPosition + (deltaTime / 1000) * pixelsPerSecond)
    let s1 := applyScrollPosition
      { s with lastFrameTime := now, scrollPosition := pos }
    { s1 with animationFrameId := some s1.nextFrameHandle
              nextFrameHandle := s1.nextFrameHandle + 1 }

/-- `start` (source lines 155-160): no-op when already scrolling or when
`contentWidth` is zero (JS falsiness of the number); otherwise set
`isScrolling`, capture `lastFrameTime = now`, and run the first
`animationLoop` iteration synchronously. -/
def start (cfg : Config) (s : TrackerState) (now : ℚ) : TrackerState :=
  if s.isScrolling = true ∨ s.contentWidth = 0 then s
  else animationLoop cfg { s with isScrolling := true, lastFrameTime := now } now

/-- `pause` (source lines 187-193): clear `isScrolling` and cancel any
pending animation-frame handle. -/
def pause (s : TrackerState) : TrackerState :=
  { s with isScrolling := false, animationFrameId := none }

/-- `recordInteraction` (source lines 283-290): `clearTimeout` on the
stored handle (dropping any pending timer), then `setTimeout` a new
idle timer with delay `config.idleTimeout * 1000` milliseconds; the
platform clamps a negative delay to zero, so the new timer is scheduled
to fire at `now + max 0 (idleTimeout * 1000)`. -/
def recordInteraction (cfg : Config) (s : TrackerState) (now : ℚ) : TrackerState :=
  { s with idlePending := some (now + max 0 (cfg.idleTimeout * 1000)) }

/-- The body of the idle timer callback scheduled by `recordInteraction`
(source lines 285-289): the timer fires (so it is no longer pending)
and, when neither `isDragging` nor `isHovered` holds, calls `start`. -/
def idleExpiry (cfg : Config) (s : TrackerState) (now : ℚ) : TrackerState :=
  let s1 := { s with idlePending := none }
  if s1.isDragging = false ∧ s1.isHovered = false then start cfg s1 now else s1

/-- `handleMouseMove` (source lines 268-276): no-op unless dragging;
otherwise clamp `startScrollPosition - (currentX - startX)` into
`[0, contentWidth]` via `Math.max(0, Math.min(..., contentWidth))`,
apply the offset to both tracks, and record the interaction. -/
def handleMouseMove (cfg : Config) (s : TrackerState) (currentX now : ℚ) : TrackerState :=
  if s.isDragging = false then s else
    let deltaX := currentX - s.startX
    let pos := max 0 (min (s.startScrollPosition - deltaX) s.contentWidth)
    recordInteraction cfg (applyScrollPosition { s with scrollPosition := pos }) now

/-- `handleTouchMove` (source lines 244-252): identical arithmetic to
`handleMouseMove`, with `currentX` read from `touches[0].clientX`. -/
def handleTouchMove (cfg : Config) (s : TrackerState) (currentX now : ℚ) : TrackerState :=
  if s.isDragging = false then s else
    let deltaX := currentX - s.startX
    let pos := max 0 (min (s.startScrollPosition - deltaX) s.contentWidth)
    recordInteraction cfg (applyScrollPosition { s with scrollPosition := pos }) now

/-- The `resize` listener (source lines 230-232): re-measure the track
width; nothing else is touched. -/
def handleResize (s : TrackerState) (measuredWidth : ℚ) : TrackerState :=
  { s with contentWidth := measuredWidth }

/-- Member names every object literal inherits from the JavaScript
`Object.prototype`: bracket access on `config.themes` with one of these
names yields the inherited function (or, for `__proto__`, the prototype
object), a truthy value, even though the name is not a configured
theme. -/
def protoMembers : List String :=
  ["constructor", "hasOwnProperty", "isPrototypeOf", "propertyIsEnumerable",
   "toLocaleString", "toString", "valueOf", "__proto__", "__defineGetter__",
   "__defineSetter__", "__lookupGetter__", "__lookupSetter__"]

/-- `setTheme` (source lines 143-153).  The guard on line 144 is the
truthiness test `!this.config.themes[themeName]`: it returns early only
when the bracket access is falsy, i.e. when the name is neither a
configured theme (own property, always a truthy object) nor one of the
members inherited from `Object.prototype` (`protoMembers`, all truthy).
For a configured name, `currentTheme` becomes the name and the theme
colors are written to the container and to every news item.  For an
inherited, non-configured name the guard passes as well: the source
assigns `currentTheme = themeName`, but every subsequent style write
stringifies an undefined field of the inherited function into an
invalid CSS value (`undefined` / `1px solid undefined`), which the
style setter discards, so no other observable state changes. -/
def setTheme (cfg : Config) (s : TrackerState) (themeName : String) : TrackerState :=
  match List.lookup themeName cfg.themes with
  | none =>
      if themeName ∈ protoMembers then { s with currentTheme := themeName } else s
  | some theme =>
      { s with currentTheme := themeName
               containerBg := theme.background
               containerColor := theme.text
               items := s.items.map (fun _ =>
                 { backgroundColor := theme.itemBg
                   border := "1px solid " ++ theme.itemBorder }) }

/-- `destroy` (source lines 292-297): `pause()` (which cancels the
animation frame), removal of the resize listener, and clearing of the
container markup and inline style.  Note the function never calls
`clearTimeout(this.idleTimeoutId)`, so `idlePending` is untouched. -/
def destroy (s : TrackerState) : TrackerState :=
  let s1 := pause s
  { s1 with items := [], containerBg := "", containerColor := "" }

/-- Runs `animationLoop` once per entry of `elapsedList`: entry `e` is a
frame whose clock reads `lastFrameTime + e`, i.e. a frame with elapsed
time `e` milliseconds since the previous one. -/
def runFrames (cfg : Config) (s : TrackerState) : List ℚ → TrackerState
  | [] => s
  | e :: es => runFrames cfg (animationLoop cfg s (s.lastFrameTime + e)) es

/-- The firing times of the idle timer over a sequence of
`recordInteraction` calls at the given timestamps: before each call, a
pending timer whose fire time precedes that call fires; each call then
reschedules; after the last call the remaining pending timer fires. -/
def idleFirings (cfg : Config) (s : TrackerState) : List ℚ → List ℚ
  | [] => s.idlePending.toList
  | t :: ts =>
      (match s.idlePending with
       | some f => if f < t then [f] else []
       | none => []) ++ idleFirings cfg (recordInteraction cfg s t) ts

/-- The configuration produced by constructing with no options: all
defaults (`scrollSpeed = 100`, `idleTimeout = 5`). -/
def cfgDefault : Config := mkConfig {}

/-- A tracker mid-animation: scrolling, track width 1000, offset 0,
previous frame at clock 0. -/
def scrollingState : TrackerState :=
  { initialState with
    isScrolling := true
    contentWidth := 1000 }

/-- A tracker mid-drag with a pending idle timer and a scheduled
animation frame, as reachable after start, mousedown and a mousemove. -/
def pendingDragState : TrackerState :=
  { initialState with
    isScrolling := true
    isDragging := true
    contentWidth := 1000
    animationFrameId := some 3
    idlePending := some 9000 }

/-- A tracker whose offset 500 was measured against the old width 800,
about to receive a resize notification. -/
def preResizeState : TrackerState :=
  { initialState with
    contentWidth := 800
    scrollPosition := 500 }

/-- C4: destroy is claimed to cancel both the frame callback and the
idle timer from every state, leaving zero scheduled work, and to be
idempotent.  Evaluating `destroy` at a state with a pending idle timer
shows the frame callback is cancelled and a second call changes
nothing, but the idle timer survives: the source never calls
`clearTimeout(this.idleTimeoutId)` in `destroy`, so the timer stays
scheduled and will later fire. -/
theorem C4_destroy_leaves_idle_timer_scheduled :
    (destroy pendingDragState).animationFrameId = none ∧
    (destroy pendingDragState).isScrolling = false ∧
    (destroy pendingDragState).idlePending = some 9000 ∧
    (destroy pendingDragState).idlePending ≠ none ∧
    destroy (destroy pendingDragState) = destroy pendingDragState := by
  decide

/-- C5 counterexample: configuring a scroll period of 0 is claimed to be
rejected with the prior configuration (default 100) left active; in
fact the constructor merge stores 0 into the active configuration and
the default is not retained. -/
theorem C5_zero_period_accepted_counterexample :
    (mkConfig { scrollSpeed := some 0 }).scrollSpeed = 0 ∧
    (mkConfig { scrollSpeed := some 0 }).scrollSpeed ≠ cfgDefault.scrollSpeed := by
  decide

/-- C5 amended: there is no validation of the scroll period anywhere in
the source (and no `setScrollConfig` method exists); for every
`periodSeconds ≤ 0` the constructor merge succeeds and installs exactly
the supplied value as the active `scrollSpeed`, which the render loop
then reads unchecked. -/
theorem C5_config_merge_unvalidated (p : ℚ) (hp : p ≤ 0) :
    (mkConfig { scrollSpeed := some p }).scrollSpeed = p ∧
    (mkConfig { scrollSpeed := some p }).scrollSpeed ≤ 0 := by
  exact ⟨rfl, hp⟩

/-- C5 witness: the amended statement at the concrete period 0. -/
theorem C5_config_merge_unvalidated_witness :
    (0:ℚ) ≤ 0 ∧ (mkConfig { scrollSpeed := some 0 }).scrollSpeed = 0 :=
  ⟨le_refl 0, (C5_config_merge_unvalidated 0 (le_refl 0)).1⟩

/-- C6 counterexample: with `idleTimeout = 0` the idle timer is claimed
to be disabled entirely, `recordInteraction` never scheduling a resume;
in fact `recordInteraction` schedules a timer with delay `0 * 1000 = 0`
milliseconds, pending to fire immediately at the current instant. -/
theorem C6_zero_timeout_still_schedules_counterexample :
    (recordInteraction (mkConfig { idleTimeout := some 0 }) initialState 42).idlePending
      = some 42 ∧
    (recordInteraction (mkConfig { idleTimeout := some 0 }) initialState 42).idlePending
      ≠ none := by
  have h : (mkConfig { idleTimeout := some 0 }).idleTimeout = 0 := rfl
  simp [recordInteraction, h]

/-- C6 amended: for every configured idle timeout ≤ 0,
`recordInteraction` still cancels the prior timer and schedules a new
one, whose delay `idleTimeout * 1000` is clamped by the platform to 0:
the timer is pending to fire immediately at the scheduling instant,
rather than being disabled. -/
theorem C6_nonpositive_timeout_fires_immediately
    (cfg : Config) (s : TrackerState) (now : ℚ) (h : cfg.idleTimeout ≤ 0) :
    (recordInteraction cfg s now).idlePending = some now := by
  have h1000 : cfg.idleTimeout * 1000 ≤ 0 := by linarith
  simp [recordInteraction, max_eq_left h1000]

/-- C6 witness: the amended statement at a concrete negative timeout. -/
theorem C6_nonpositive_timeout_fires_immediately_witness :
    (mkConfig { idleTimeout := some (-3) }).idleTimeout ≤ 0 ∧
    (recordInteraction (mkConfig { idleTimeout := some (-3) }) initialState 7).idlePending
      = some 7 := by
  refine ⟨by decide, ?_⟩
  exact C6_nonpositive_timeout_fires_immediately _ initialState 7 (by decide)

/-- C7 counterexample: the resize listener is claimed to reclamp
`scrollOffset` into `[0, trackLength)` whenever the old offset exceeds
the newly measured length; in fact, shrinking the track from 800 to 100
with offset 500 leaves the offset at 500, outside `[0, 100)`. -/
theorem C7_resize_no_reclamp_counterexample :
    (handleResize preResizeState 100).contentWidth = 100 ∧
    (handleResize preResizeState 100).scrollPosition = 500 ∧
    ¬ (handleResize preResizeState 100).scrollPosition
        < (handleResize preResizeState 100).contentWidth := by
  decide

/-- C7 amended: on a resize notification the controller re-queries the
track length and never resets `scrollOffset` (continuity holds), but it
performs no reclamping at all: the offset is left bit-for-bit
unchanged, even when it exceeds the new length, and nothing else of the
state is touched. -/
theorem C7_resize_remeasures_and_preserves_offset (s : TrackerState) (w : ℚ) :
    (handleResize s w).contentWidth = w ∧
    (handleResize s w).scrollPosition = s.scrollPosition ∧
    handleResize s w = { s with contentWidth := w } := by
  exact ⟨rfl, rfl, rfl⟩

/-- A tracker mid-drag: the gesture began at pointer x = 200 with the
offset at 50, on a track of width 1000. -/
def dragState : TrackerState :=
  { initialState with
    isDragging := true
    contentWidth := 1000
    startX := 200
    startScrollPosition := 50 }

/-- A tracker being hovered (driver paused by mouseenter), not
dragging. -/
def hoveredState : TrackerState :=
  { initialState with
    isHovered := true
    contentWidth := 1000 }

/-- C3: while dragging, a mouse or touch move sets the offset to
`clamp(originOffset - (currentX - originX), 0, trackLength)`, hence the
offset stays within `[0, trackLength]` however large the delta; when
not dragging, both move handlers are no-ops. -/
theorem C3_drag_clamp (cfg : Config) (s : TrackerState) (x now : ℚ) :
    (s.isDragging = false →
      handleMouseMove cfg s x now = s ∧ handleTouchMove cfg s x now = s) ∧
    (s.isDragging = true →
      (handleMouseMove cfg s x now).scrollPosition
        = max 0 (min (s.startScrollPosition - (x - s.startX)) s.contentWidth) ∧
      (handleTouchMove cfg s x now).scrollPosition
        = max 0 (min (s.startScrollPosition - (x - s.startX)) s.contentWidth) ∧
      (0 ≤ s.contentWidth →
        0 ≤ (handleMouseMove cfg s x now).scrollPosition ∧
        (handleMouseMove cfg s x now).scrollPosition ≤ s.contentWidth ∧
        0 ≤ (handleTouchMove cfg s x now).scrollPosition ∧
        (handleTouchMove cfg s x now).scrollPosition ≤ s.contentWidth)) := by
  constructor
  · intro h
    constructor
    · simp [handleMouseMove, h]
    · simp [handleTouchMove, h]
  · intro h
    have hm : (handleMouseMove cfg s x now).scrollPosition
        = max 0 (min (s.startScrollPosition - (x - s.startX)) s.contentWidth) := by
      simp [handleMouseMove, h, recordInteraction, applyScrollPosition]
    have ht : (handleTouchMove cfg s x now).scrollPosition
        = max 0 (min (s.startScrollPosition - (x - s.startX)) s.contentWidth) := by
      simp [handleTouchMove, h, recordInteraction, applyScrollPosition]
    refine ⟨hm, ht, fun hw => ?_⟩
    refine ⟨?_, ?_, ?_, ?_⟩
    · rw [hm]; exact le_max_left 0 _
    · rw [hm]; exact max_le hw (min_le_right _ _)
    · rw [ht]; exact le_max_left 0 _
    · rw [ht]; exact max_le hw (min_le_right _ _)

/-- C3 witness: the spec example: dragging from origin offset 50 with
the pointer moving from x = 200 to x = 150 yields offset 100, inside
the clamp range. -/
theorem C3_drag_clamp_witness :
    dragState.isDragging = true ∧
    (handleMouseMove cfgDefault dragState 150 5).scrollPosition = 100 ∧
    0 ≤ (handleMouseMove cfgDefault dragState 150 5).scrollPosition ∧
    (handleMouseMove cfgDefault dragState 150 5).scrollPosition
      ≤ dragState.contentWidth := by
  have h := (C3_drag_clamp cfgDefault dragState 150 5).2 rfl
  have hb := h.2.2 (by norm_num : (0:ℚ) ≤ 1000)
  refine ⟨rfl, ?_, hb.1, hb.2.1⟩
  rw [h.1]
  have h1 : dragState.startScrollPosition - (150 - dragState.startX) = 100 := by
    show (50:ℚ) - (150 - 200) = 100
    norm_num
  have h2 : dragState.contentWidth = (1000:ℚ) := rfl
  rw [h1, h2, min_eq_left (by norm_num : (100:ℚ) ≤ 1000),
    max_eq_right (by norm_num : (0:ℚ) ≤ 100)]

/-- C9: the idle-expiry callback never starts the driver while hovered
(even when not dragging): it only clears the pending-timer slot; it
invokes `start` exactly when both `isDragging` and `isHovered` are
false, and is otherwise a no-op on the rest of the state. -/
theorem C9_idle_expiry_guard (cfg : Config) (s : TrackerState) (now : ℚ) :
    (s.isHovered = true →
      (idleExpiry cfg s now).isScrolling = s.isScrolling ∧
      idleExpiry cfg s now = { s with idlePending := none }) ∧
    (s.isDragging = false → s.isHovered = false →
      idleExpiry cfg s now = start cfg { s with idlePending := none } now) ∧
    (s.isDragging = true → idleExpiry cfg s now = { s with idlePending := none }) := by
  refine ⟨fun h => ?_, fun hd hh => ?_, fun hd => ?_⟩
  · have he : idleExpiry cfg s now = { s with idlePending := none } := by
      simp [idleExpiry, h]
    exact ⟨by rw [he], he⟩
  · simp [idleExpiry, hd, hh]
  · simp [idleExpiry, hd]

/-- C9 witness: from a hovered, non-dragging, paused state the expiry
callback leaves the driver stopped. -/
theorem C9_idle_expiry_guard_witness :
    hoveredState.isHovered = true ∧ hoveredState.isDragging = false ∧
    (idleExpiry cfgDefault hoveredState 0).isScrolling = false := by
  have h := (C9_idle_expiry_guard cfgDefault hoveredState 0).1 rfl
  refine ⟨rfl, rfl, ?_⟩
  rw [h.1]
  rfl

/-- A tracker that currently displays two news items. -/
def themedState : TrackerState :=
  { initialState with
    items := [⟨"", ""⟩, ⟨"", ""⟩] }

/-- C10 counterexample: "toString" is not present in the configured
themes map, yet `setTheme` does not return unchanged: the truthiness
guard of line 144 sees the inherited `Object.prototype.toString`
function, so the source falls through and assigns
`currentTheme = "toString"`. -/
theorem C10_proto_name_counterexample :
    List.lookup "toString" cfgDefault.themes = none ∧
    (setTheme cfgDefault themedState "toString").currentTheme = "toString" ∧
    setTheme cfgDefault themedState "toString" ≠ themedState := by
  decide

/-- C10 amended: `setTheme` with a name that is neither a configured
theme nor an `Object.prototype` member name returns before any
mutation, leaving the whole state (current theme, container colors,
every item style) unchanged; with a non-configured `Object.prototype`
member name the guard passes and exactly `currentTheme` is overwritten,
every color write being discarded as invalid CSS; with a present name
it installs that name as current and applies the theme colors to the
container and to every news item. -/
theorem C10_setTheme_guard (cfg : Config) (s : TrackerState) (name : String) :
    (List.lookup name cfg.themes = none → name ∉ protoMembers →
      setTheme cfg s name = s) ∧
    (List.lookup name cfg.themes = none → name ∈ protoMembers →
      setTheme cfg s name = { s with currentTheme := name }) ∧
    (∀ th : Theme, List.lookup name cfg.themes = some th →
      (setTheme cfg s name).currentTheme = name ∧
      (setTheme cfg s name).containerBg = th.background ∧
      (setTheme cfg s name).containerColor = th.text ∧
      (setTheme cfg s name).items = s.items.map (fun _ =>
        { backgroundColor := th.itemBg
          border := "1px solid " ++ th.itemBorder })) := by
  refine ⟨fun h hnp => ?_, fun h hp => ?_, fun th h => ?_⟩
  · simp [setTheme, h, hnp]
  · simp [setTheme, h, hp]
  · simp [setTheme, h]

/-- C10 witness: "neon" is absent from the default themes and from the
prototype members and changes nothing; "toString" is absent from the
themes but inherited, so only `currentTheme` changes; "dark" is present
and restyles the container and both news items. -/
theorem C10_setTheme_guard_witness :
    List.lookup "neon" cfgDefault.themes = none ∧
    "neon" ∉ protoMembers ∧
    setTheme cfgDefault themedState "neon" = themedState ∧
    List.lookup "toString" cfgDefault.themes = none ∧
    "toString" ∈ protoMembers ∧
    setTheme cfgDefault themedState "toString"
      = { themedState with currentTheme := "toString" } ∧
    List.lookup "dark" cfgDefault.themes = some ⟨"#1a1a1a", "#fff", "#333", "#444"⟩ ∧
    (setTheme cfgDefault themedState "dark").currentTheme = "dark" ∧
    (setTheme cfgDefault themedState "dark").containerBg = "#1a1a1a" ∧
    (setTheme cfgDefault themedState "dark").items
      = [⟨"#333", "1px solid #444"⟩, ⟨"#333", "1px solid #444"⟩] := by
  have hn : List.lookup "neon" cfgDefault.themes = none := by decide
  have hnp : "neon" ∉ protoMembers := by decide
  have hts : List.lookup "toString" cfgDefault.themes = none := by decide
  have htp : "toString" ∈ protoMembers := by decide
  have hd : List.lookup "dark" cfgDefault.themes
      = some ⟨"#1a1a1a", "#fff", "#333", "#444"⟩ := by decide
  have g := C10_setTheme_guard cfgDefault themedState "neon"
  have gt := (C10_setTheme_guard cfgDefault themedState "toString").2.1 hts htp
  have g2 := (C10_setTheme_guard cfgDefault themedState "dark").2.2
    ⟨"#1a1a1a", "#fff", "#333", "#444"⟩ hd
  refine ⟨hn, hnp, g.1 hn hnp, hts, htp, gt, hd, g2.1, g2.2.1, ?_⟩
  rw [g2.2.2.2]
  decide

/-- Behaviour of one scrolling frame: position wrapped, width and
scrolling flag preserved, clock captured, both tracks given the
identical new translation. -/
lemma animationLoop_spec (cfg : Config) (s : TrackerState) (now : ℚ)
    (hs : s.isScrolling = true) :
    (animationLoop cfg s now).scrollPosition
      = wrapPosition s.contentWidth
          (s.scrollPosition + ((now - s.lastFrameTime) / 1000)
            * ((s.contentWidth / 2) / cfg.scrollSpeed)) ∧
    (animationLoop cfg s now).contentWidth = s.contentWidth ∧
    (animationLoop cfg s now).isScrolling = true ∧
    (animationLoop cfg s now).lastFrameTime = now ∧
    (animationLoop cfg s now).contentTransforms
      = s.contentTransforms.map (fun _ => -(animationLoop cfg s now).scrollPosition) := by
  simp [animationLoop, applyScrollPosition, hs]

lemma wrapPosition_of_lt (W p : ℚ) (h : p < W) : wrapPosition W p = p := by
  unfold wrapPosition
  exact if_neg (not_le.mpr h)

lemma wrapPosition_bounds (W p : ℚ) (hp : 0 ≤ p) (h2 : p < 2 * W) :
    0 ≤ wrapPosition W p ∧ wrapPosition W p < W := by
  unfold wrapPosition
  split_ifs with h
  · constructor <;> linarith
  · push_neg at h
    exact ⟨hp, h⟩

/-- C1 counterexample: with `trackLength = 1000` and a configured scroll
period of 100 seconds, the claim expects a speed of
`trackLength / period = 10` per second, so offset 10 and translation
-10 after one simulated second; the code divides the half track length
by the period, giving offset 5 and translation -5. -/
theorem C1_half_speed_counterexample :
    cfgDefault.scrollSpeed = 100 ∧
    scrollingState.contentWidth = 1000 ∧
    (runFrames cfgDefault scrollingState [1000]).scrollPosition = 5 ∧
    (runFrames cfgDefault scrollingState [1000]).scrollPosition ≠ 10 ∧
    (runFrames cfgDefault scrollingState [1000]).contentTransforms = [-5, -5] ∧
    (runFrames cfgDefault scrollingState [1000]).contentTransforms ≠ [-10, -10] := by
  refine ⟨rfl, rfl, ?_, ?_, ?_, ?_⟩ <;>
    norm_num [runFrames, animationLoop, wrapPosition, applyScrollPosition,
      scrollingState, initialState, cfgDefault, mkConfig]

/-- C1 amended: each frame advances the offset at
`(trackLength / 2) / configuredScrollPeriodSeconds` per second (half
the claimed speed): a frame of `e` milliseconds that stays below the
wrap threshold adds exactly `(e / 1000) * ((trackLength / 2) / period)`
to the offset and translates both tracks by the negated new offset; in
particular one simulated second with `trackLength = 1000`, period 100
gives offset 5 and translations -5. -/
theorem C1_frame_speed (cfg : Config) (s : TrackerState) (e : ℚ)
    (hs : s.isScrolling = true)
    (hlt : s.scrollPosition + (e / 1000) * ((s.contentWidth / 2) / cfg.scrollSpeed)
      < s.contentWidth) :
    (runFrames cfg s [e]).scrollPosition
      = s.scrollPosition + (e / 1000) * ((s.contentWidth / 2) / cfg.scrollSpeed) ∧
    (runFrames cfg s [e]).contentTransforms
      = s.contentTransforms.map (fun _ => -(runFrames cfg s [e]).scrollPosition) := by
  have hrun : runFrames cfg s [e] = animationLoop cfg s (s.lastFrameTime + e) := by
    simp [runFrames]
  obtain ⟨hpos, _, _, _, htr⟩ :=
    animationLoop_spec cfg s (s.lastFrameTime + e) hs
  rw [add_sub_cancel_left] at hpos
  constructor
  · rw [hrun, hpos]
    exact wrapPosition_of_lt _ _ hlt
  · rw [hrun]
    exact htr

/-- C1 witness: the amended statement at the concrete one-second
scenario of the claim. -/
theorem C1_frame_speed_witness :
    scrollingState.isScrolling = true ∧
    (runFrames cfgDefault scrollingState [1000]).scrollPosition
      = scrollingState.scrollPosition
        + (1000 / 1000) * ((scrollingState.contentWidth / 2) / cfgDefault.scrollSpeed) := by
  exact ⟨rfl, (C1_frame_speed cfgDefault scrollingState 1000 rfl
    (by norm_num [scrollingState, initialState, cfgDefault, mkConfig])).1⟩

/-- One frame keeps the offset inside `[0, trackLength)` provided its
elapsed time is at most `2000 * scrollSpeed` milliseconds, i.e. the
per-frame increment is at most one track length. -/
lemma frame_step_bounds (cfg : Config) (s : TrackerState) (e : ℚ)
    (hs : s.isScrolling = true) (hsp : 0 < cfg.scrollSpeed) (hw : 0 < s.contentWidth)
    (h0 : 0 ≤ s.scrollPosition) (h1 : s.scrollPosition < s.contentWidth)
    (he0 : 0 ≤ e) (he1 : e ≤ 2000 * cfg.scrollSpeed) :
    (animationLoop cfg s (s.lastFrameTime + e)).isScrolling = true ∧
    (animationLoop cfg s (s.lastFrameTime + e)).contentWidth = s.contentWidth ∧
    0 ≤ (animationLoop cfg s (s.lastFrameTime + e)).scrollPosition ∧
    (animationLoop cfg s (s.lastFrameTime + e)).scrollPosition < s.contentWidth := by
  obtain ⟨hpos, hcw, hsc, _, _⟩ :=
    animationLoop_spec cfg s (s.lastFrameTime + e) hs
  rw [add_sub_cancel_left] at hpos
  have h2000 : (0:ℚ) < 2000 * cfg.scrollSpeed := by linarith
  have hne : cfg.scrollSpeed ≠ 0 := ne_of_gt hsp
  have hinc_eq : (e / 1000) * ((s.contentWidth / 2) / cfg.scrollSpeed)
      = e * s.contentWidth / (2000 * cfg.scrollSpeed) := by
    rw [div_div, div_mul_div_comm,
      show (1000:ℚ) * (2 * cfg.scrollSpeed) = 2000 * cfg.scrollSpeed from by ring]
  have hinc0 : 0 ≤ e * s.contentWidth / (2000 * cfg.scrollSpeed) :=
    div_nonneg (mul_nonneg he0 hw.le) h2000.le
  have hincW : e * s.contentWidth / (2000 * cfg.scrollSpeed) ≤ s.contentWidth := by
    rw [div_le_iff₀ h2000]
    nlinarith
  rw [hinc_eq] at hpos
  have hb := wrapPosition_bounds s.contentWidth
    (s.scrollPosition + e * s.contentWidth / (2000 * cfg.scrollSpeed))
    (by linarith) (by linarith)
  rw [← hpos] at hb
  exact ⟨hsc, hcw, hb.1, hb.2⟩

/-- C2 corrected wrap invariant: starting from an offset in
`[0, trackLength)` with positive track length and scroll period, the
offset stays in `[0, trackLength)` after the normalization of every
frame of a sequence, provided each frame elapsed time is at most
`2000 * scrollSpeed` milliseconds (per-frame increment at most one
track length); the single conditional subtraction cannot normalize a
larger advance. -/
theorem C2_wrap_invariant (cfg : Config) (s : TrackerState) (es : List ℚ)
    (hs : s.isScrolling = true) (hsp : 0 < cfg.scrollSpeed) (hw : 0 < s.contentWidth)
    (h0 : 0 ≤ s.scrollPosition) (h1 : s.scrollPosition < s.contentWidth)
    (he : ∀ e ∈ es, 0 ≤ e ∧ e ≤ 2000 * cfg.scrollSpeed) :
    0 ≤ (runFrames cfg s es).scrollPosition ∧
    (runFrames cfg s es).scrollPosition < (runFrames cfg s es).contentWidth := by
  induction es generalizing s with
  | nil =>
      simpa [runFrames] using ⟨h0, h1⟩
  | cons e es ih =>
      obtain ⟨he0, he1⟩ := he e (List.mem_cons_self e es)
      obtain ⟨hsc, hcw, hp0, hp1⟩ :=
        frame_step_bounds cfg s e hs hsp hw h0 h1 he0 he1
      have hw2 : 0 < (animationLoop cfg s (s.lastFrameTime + e)).contentWidth := by
        rw [hcw]; exact hw
      have h12 : (animationLoop cfg s (s.lastFrameTime + e)).scrollPosition
          < (animationLoop cfg s (s.lastFrameTime + e)).contentWidth := by
        rw [hcw]; exact hp1
      have he2 : ∀ x ∈ es, 0 ≤ x ∧ x ≤ 2000 * cfg.scrollSpeed :=
        fun x hx => he x (List.mem_cons_of_mem e hx)
      have hres := ih (animationLoop cfg s (s.lastFrameTime + e)) hsc hw2 hp0 h12 he2
      simpa [runFrames] using hres

/-- C2 counterexample: from offset 0 on a track of length 1000 with
scroll period 100, one frame with elapsed 400000 milliseconds advances
the offset to 2000 and the single subtraction leaves it at 1000, not
inside `[0, 1000)` — the invariant as claimed for every elapsed ≥ 0
fails. -/
theorem C2_wrap_overflow_counterexample :
    0 ≤ scrollingState.scrollPosition ∧
    scrollingState.scrollPosition < scrollingState.contentWidth ∧
    (0:ℚ) ≤ 400000 ∧
    (runFrames cfgDefault scrollingState [400000]).scrollPosition = 1000 ∧
    ¬ (runFrames cfgDefault scrollingState [400000]).scrollPosition
        < (runFrames cfgDefault scrollingState [400000]).contentWidth := by
  refine ⟨by norm_num [scrollingState, initialState], by norm_num [scrollingState, initialState],
    by norm_num, ?_, ?_⟩ <;>
    norm_num [runFrames, animationLoop, wrapPosition, applyScrollPosition,
      scrollingState, initialState, cfgDefault, mkConfig]

/-- C2 witness: the amended invariant on a run of three 100 millisecond
frames from the standard scrolling state. -/
theorem C2_wrap_invariant_witness :
    (∀ e ∈ [(100:ℚ), 100, 100], 0 ≤ e ∧ e ≤ 2000 * cfgDefault.scrollSpeed) ∧
    0 ≤ (runFrames cfgDefault scrollingState [100, 100, 100]).scrollPosition ∧
    (runFrames cfgDefault scrollingState [100, 100, 100]).scrollPosition
      < (runFrames cfgDefault scrollingState [100, 100, 100]).contentWidth := by
  have hsp : cfgDefault.scrollSpeed = 100 := rfl
  have hl : ∀ e ∈ [(100:ℚ), 100, 100], 0 ≤ e ∧ e ≤ 2000 * cfgDefault.scrollSpeed := by
    intro e he
    simp only [List.mem_cons, List.not_mem_nil, or_false] at he
    rcases he with rfl | rfl | rfl <;> rw [hsp] <;> norm_num
  have h := C2_wrap_invariant cfgDefault scrollingState [100, 100, 100] rfl
    (by rw [hsp]; norm_num) (by norm_num [scrollingState, initialState])
    (by norm_num [scrollingState, initialState]) (by norm_num [scrollingState, initialState]) hl
  exact ⟨hl, h⟩

/-- While consecutive interactions arrive strictly less than the idle
delay apart, each `recordInteraction` supersedes the pending timer
before it can fire, so the only firing of the whole run is the one
scheduled by the last interaction. -/
lemma idleFirings_superseded (cfg : Config) (ht : 0 < cfg.idleTimeout) (ts : List ℚ) :
    ∀ (s : TrackerState) (prev : ℚ),
      s.idlePending = some (prev + cfg.idleTimeout * 1000) →
      List.Chain' (fun a b => b - a < cfg.idleTimeout * 1000) (prev :: ts) →
      idleFirings cfg s ts = [List.getLastD ts prev + cfg.idleTimeout * 1000] := by
  induction ts with
  | nil =>
      intro s prev hp _
      simp [idleFirings, hp]
  | cons t ts ih =>
      intro s prev hp hchain
      rw [List.chain'_cons] at hchain
      obtain ⟨hrel, hchain2⟩ := hchain
      have hmax : max 0 (cfg.idleTimeout * 1000) = cfg.idleTimeout * 1000 :=
        max_eq_right (by linarith)
      have hnf : ¬ (prev + cfg.idleTimeout * 1000 < t) := by linarith
      have hrec : (recordInteraction cfg s t).idlePending
          = some (t + cfg.idleTimeout * 1000) := by
        simp [recordInteraction, hmax]
      have hrest := ih (recordInteraction cfg s t) t hrec hchain2
      simp only [idleFirings, hp, hnf, hrest, List.getLastD_cons, if_false,
        List.nil_append, ite_false]

/-- C8: from a state with no pending timer, a run of interactions in
which consecutive timestamps are separated by less than
`idleTimeout` seconds (so `idleTimeout * 1000` milliseconds) produces
exactly one resume-timer firing, scheduled `idleTimeout` after the last
interaction: every `recordInteraction` cancels the previously scheduled
timer before scheduling its replacement. -/
theorem C8_idle_debounce (cfg : Config) (s : TrackerState) (t0 : ℚ) (ts : List ℚ)
    (hp : s.idlePending = none) (ht : 0 < cfg.idleTimeout)
    (hchain : List.Chain' (fun a b => b - a < cfg.idleTimeout * 1000) (t0 :: ts)) :
    idleFirings cfg s (t0 :: ts)
      = [List.getLastD ts t0 + cfg.idleTimeout * 1000] := by
  have hmax : max 0 (cfg.idleTimeout * 1000) = cfg.idleTimeout * 1000 :=
    max_eq_right (by linarith)
  have hrec : (recordInteraction cfg s t0).idlePending
      = some (t0 + cfg.idleTimeout * 1000) := by
    simp [recordInteraction, hmax]
  have h := idleFirings_superseded cfg ht ts (recordInteraction cfg s t0) t0 hrec hchain
  simp [idleFirings, hp, h]

/-- C8 witness: three interactions at 0, 1000 and 2000 milliseconds
with the default 5 second idle timeout fire exactly once, 5000
milliseconds after the last interaction. -/
theorem C8_idle_debounce_witness :
    initialState.idlePending = none ∧
    0 < cfgDefault.idleTimeout ∧
    idleFirings cfgDefault initialState [0, 1000, 2000] = [7000] := by
  have hti : cfgDefault.idleTimeout = 5 := rfl
  have hchain : List.Chain' (fun a b => b - a < cfgDefault.idleTimeout * 1000)
      [(0:ℚ), 1000, 2000] := by
    simp only [List.chain'_cons, List.chain'_singleton, and_true, hti]
    norm_num
  have h := C8_idle_debounce cfgDefault initialState 0 [1000, 2000] rfl
    (by rw [hti]; norm_num) hchain
  refine ⟨rfl, by rw [hti]; norm_num, ?_⟩
  rw [h, hti]
  norm_num [List.getLastD_cons]

end NewsTracker
